import Mathlib

/-!
Shallow embedding of the spreadsheet evaluation core of the repository
(src/src/types.js, axis-index.js, cell-store.js, dep-graph (unnamed part),
range-watchers.ts, parser.ts, transform.js, sheet.js), followed by theorems
settling the claims about it.

Conventions of the embedding:
* JavaScript numbers appearing as positions, offsets and counts are `Int`
  (all uses in the source are integral); cell values set via `setValue` are
  numbers, modelled as `Int` (no claim exercises non-integral arithmetic).
* `undefined` / `null` returns become `Option`; the `'#REF!'` return of
  functions that return "value or `'#REF!'`" becomes `none` with the scalar
  sentinel kept where the source stores it in a cell.
* JavaScript `Map` is an insertion-ordered association list
  (`Map.set` of an existing key keeps its position, a new key is appended);
  JavaScript `Set` is an insertion-ordered duplicate-free list.
* Worklist loops (BFS in the dependency graph, the depth-first
  topological-sort visit) take an explicit fuel argument; the fuel used at
  every call site is far larger than the number of steps any reachable
  input in this file can take, so the embedded functions agree with the
  source on them.
-/

namespace TableSpec

/-! ## Basic types (src/src/types.js) -/

/-- Scalar = number | '#REF!' | '#CYCLE!'. -/
inductive Scalar where
  | num (n : Int)
  | sref
  | scycle
deriving DecidableEq, Repr

/-- Address = { row: RowId, col: ColId }, identifiers are the strings minted
by the axis indexes. -/
structure Address where
  row : String
  col : String
deriving DecidableEq, Repr

/-- addressKey(addr) = `row:col` string. -/
def addressKey (a : Address) : String := a.row ++ ":" ++ a.col

/-- parseAddressKey(key): split at ':', take the first two parts. -/
def parseAddressKey (k : String) : Address :=
  let cs := k.data
  let rowPart := cs.takeWhile (fun c => c ≠ ':')
  let rest := cs.dropWhile (fun c => c ≠ ':')
  let colPart := match rest with
    | ':' :: t => t.takeWhile (fun c => c ≠ ':')
    | _ => []
  { row := String.mk rowPart, col := String.mk colPart }

inductive RowColMode where
  | rel
  | abs
deriving DecidableEq, Repr

/-- Anchor: base address plus per-axis mode and offset. -/
structure Anchor where
  base : Address
  rowMode : RowColMode
  colMode : RowColMode
  dRow : Int
  dCol : Int
deriving DecidableEq, Repr

/-- RangeRef = { start, end }; the source field `end` is a Lean keyword and
is called `stop` here. -/
structure RangeRef where
  start : Anchor
  stop : Anchor
deriving DecidableEq, Repr

inductive Formula where
  | Ref (ref : Anchor)
  | Sum (range : RangeRef)
deriving DecidableEq, Repr

/-- Cell: `value` or `formula` with an optional cached scalar. -/
inductive Cell where
  | value (v : Scalar)
  | formula (ast : Formula) (cached : Option Scalar)
deriving DecidableEq, Repr

inductive Axis where
  | row
  | col
deriving DecidableEq, Repr

structure Splice where
  axis : Axis
  atPos : Int
  del : Int
  ins : Int
deriving DecidableEq, Repr

structure Position where
  r : Int
  c : Int
deriving DecidableEq, Repr

/-! ## AxisIndex (src/src/axis-index.js) -/

structure Segment where
  startPos : Int
  ids : List String
deriving DecidableEq, Repr

structure AxisIndex where
  segments : List Segment
  nextId : Nat
deriving DecidableEq, Repr

/-- generateId: `id${nextId++}`. -/
def generateId (n : Nat) : String := "id" ++ toString n

/-- The constructor: one segment at position 1 holding `initialCount`
freshly minted identifiers. -/
def AxisIndex.init (initialCount : Nat) : AxisIndex :=
  { segments := [{ startPos := 1, ids := (List.range initialCount).map generateId }]
    nextId := initialCount }

/-- Array.prototype.indexOf: index of the first occurrence, -1 if absent. -/
def jsIndexOf (l : List String) (x : String) : Int :=
  go l 0
where
  go : List String → Int → Int
    | [], _ => -1
    | a :: t, i => if a = x then i else go t (i + 1)

def AxisIndex.posToId (a : AxisIndex) (pos : Int) : Option String :=
  go a.segments
where
  go : List Segment → Option String
    | [] => none
    | seg :: rest =>
      let endPos := seg.startPos + seg.ids.length - 1
      if pos ≥ seg.startPos ∧ pos ≤ endPos then
        seg.ids.get? (pos - seg.startPos).toNat
      else go rest

/-- idToPos: linear scan over segments via indexOf (the source also carries
a dead local `currentPos`, which has no effect and is dropped). -/
def AxisIndex.idToPos (a : AxisIndex) (x : String) : Option Int :=
  go a.segments
where
  go : List Segment → Option Int
    | [] => none
    | seg :: rest =>
      let idx := jsIndexOf seg.ids x
      if idx ≠ -1 then some (seg.startPos + idx) else go rest

/-- ids.splice(offset, 0, ...newIds). -/
def listSpliceIns (l : List String) (offset : Nat) (newIds : List String) : List String :=
  l.take offset ++ newIds ++ l.drop offset

/-- ids.splice(offset, cnt) (removal form). -/
def listSpliceDel (l : List String) (offset cnt : Nat) : List String :=
  l.take offset ++ l.drop (offset + cnt)

/-- The insert loop: find the first segment with
`atPos ≥ startPos ∧ atPos ≤ segEnd + 1`, splice the new ids in and shift all
later segments by `count`; `none` when no segment matched. -/
def AxisIndex.insertGo (atPos count : Int) (newIds : List String) :
    List Segment → Option (List Segment)
  | [] => none
  | seg :: rest =>
    let segEnd := seg.startPos + seg.ids.length - 1
    if atPos ≥ seg.startPos ∧ atPos ≤ segEnd + 1 then
      some ({ seg with ids := listSpliceIns seg.ids (atPos - seg.startPos).toNat newIds }
        :: rest.map (fun s => { s with startPos := s.startPos + count }))
    else
      (AxisIndex.insertGo atPos count newIds rest).map (seg :: ·)

/-- insert(atPos, count): mint ids, splice into the matching segment, or
append a new segment right after the last one when nothing matched. -/
def AxisIndex.insert (a : AxisIndex) (atPos count : Int) : List String × AxisIndex :=
  let newIds := (List.range count.toNat).map (fun i => generateId (a.nextId + i))
  let nid := a.nextId + count.toNat
  match AxisIndex.insertGo atPos count newIds a.segments with
  | some segs => (newIds, { segments := segs, nextId := nid })
  | none =>
    let nextPos := match a.segments.getLast? with
      | some lastSeg => lastSeg.startPos + lastSeg.ids.length
      | none => 1
    (newIds, { segments := a.segments ++ [{ startPos := nextPos, ids := newIds }], nextId := nid })

/-- The remove loop over segments, mirroring the source's in-place loop with
its `i--` after deleting an emptied segment: a segment wholly after the
removed range is shifted back by `count`; a segment wholly before it is kept;
an overlapping segment has the overlap spliced out of its ids and every later
segment shifted back by `count` before the loop continues with them. -/
def AxisIndex.removeGo (rfrom rto count : Int) : Nat → List Segment → List Segment
  | 0, segs => segs
  | _ + 1, [] => []
  | fuel + 1, seg :: rest =>
    let segEnd := seg.startPos + seg.ids.length - 1
    if rto < seg.startPos then
      { seg with startPos := seg.startPos - count } :: AxisIndex.removeGo rfrom rto count fuel rest
    else if rfrom > segEnd then
      seg :: AxisIndex.removeGo rfrom rto count fuel rest
    else
      let delStart := max rfrom seg.startPos
      let delEnd := min rto segEnd
      let delOffset := delStart - seg.startPos
      let delCount := delEnd - delStart + 1
      let seg' := { seg with ids := listSpliceDel seg.ids delOffset.toNat delCount.toNat }
      let rest' := rest.map (fun s => { s with startPos := s.startPos - count })
      if seg'.ids.isEmpty then AxisIndex.removeGo rfrom rto count fuel rest'
      else seg' :: AxisIndex.removeGo rfrom rto count fuel rest'

/-- remove({from, to}).  The loop consumes one segment per iteration, so its
fuel — the number of segments — is exact, and the recursion is structural. -/
def AxisIndex.remove (a : AxisIndex) (rfrom rto : Int) : AxisIndex :=
  { a with segments :=
      AxisIndex.removeGo rfrom rto (rto - rfrom + 1) a.segments.length a.segments }

def AxisIndex.segmentCount (a : AxisIndex) : Nat := a.segments.length

def AxisIndex.maxPos (a : AxisIndex) : Int :=
  match a.segments.getLast? with
  | none => 0
  | some last => last.startPos + last.ids.length - 1

def AxisIndex.totalIds (a : AxisIndex) : Nat :=
  (a.segments.map (fun s => s.ids.length)).sum

/-! ## JavaScript Map / Set helpers shared by CellStore, DepGraph and
RangeWatchers.  `Map.set` keeps the position of an existing key and appends a
new one; `Set.add` keeps the position of an existing element and appends a
new one; deletions remove the entry in place. -/

def jsMapGet {α : Type} (m : List (String × α)) (k : String) : Option α :=
  (m.find? (fun p => p.1 = k)).map (fun p => p.2)

def jsMapGetD {α : Type} (m : List (String × α)) (k : String) (d : α) : α :=
  (jsMapGet m k).getD d

def jsMapSet {α : Type} (m : List (String × α)) (k : String) (v : α) : List (String × α) :=
  if m.any (fun p => p.1 = k) then
    m.map (fun p => if p.1 = k then (k, v) else p)
  else m ++ [(k, v)]

def jsMapDelete {α : Type} (m : List (String × α)) (k : String) : List (String × α) :=
  m.filter (fun p => p.1 ≠ k)

def jsSetAdd (s : List String) (x : String) : List String :=
  if s.contains x then s else s ++ [x]

def jsSetDelete (s : List String) (x : String) : List String :=
  s.filter (fun y => y ≠ x)

/-! ## CellStore (src/src/cell-store.js) -/

structure CellStore where
  cells : List (String × Cell)
deriving DecidableEq, Repr

def CellStore.init : CellStore := { cells := [] }

def CellStore.get (s : CellStore) (addr : Address) : Option Cell :=
  jsMapGet s.cells (addressKey addr)

def CellStore.set (s : CellStore) (addr : Address) (c : Cell) : CellStore :=
  { cells := jsMapSet s.cells (addressKey addr) c }

def CellStore.del (s : CellStore) (addr : Address) : CellStore :=
  { cells := jsMapDelete s.cells (addressKey addr) }

def CellStore.has (s : CellStore) (addr : Address) : Bool :=
  s.cells.any (fun p => p.1 = addressKey addr)

def CellStore.size (s : CellStore) : Nat := s.cells.length

/-! ## DepGraph (dependency graph, src/unnamed/part_002) -/

structure DepGraph where
  outgoing : List (String × List String)
  incoming : List (String × List String)
deriving DecidableEq, Repr

def DepGraph.init : DepGraph := { outgoing := [], incoming := [] }

def DepGraph.addEdge (g : DepGraph) (efrom eto : Address) : DepGraph :=
  let fromKey := addressKey efrom
  let toKey := addressKey eto
  { outgoing := jsMapSet g.outgoing fromKey (jsSetAdd (jsMapGetD g.outgoing fromKey []) toKey)
    incoming := jsMapSet g.incoming toKey (jsSetAdd (jsMapGetD g.incoming toKey []) fromKey) }

/-- replaceAllInbound: retract every edge `* → of`, then install an edge
`p → of` for each `p` of the new producer list. -/
def DepGraph.replaceAllInbound (g : DepGraph) (ofa : Address) (newFrom : List Address) :
    DepGraph :=
  let ofKey := addressKey ofa
  let out1 := (jsMapGetD g.incoming ofKey []).foldl
    (fun out fromKey =>
      match jsMapGet out fromKey with
      | none => out
      | some outSet =>
        let s' := jsSetDelete outSet ofKey
        if s'.isEmpty then jsMapDelete out fromKey else jsMapSet out fromKey s')
    g.outgoing
  let g1 : DepGraph := { outgoing := out1, incoming := jsMapSet g.incoming ofKey [] }
  newFrom.foldl (fun g2 f => g2.addEdge f ofa) g1

/-- removeAll: retract every edge touching the node, in both directions. -/
def DepGraph.removeAll (g : DepGraph) (ofa : Address) : DepGraph :=
  let ofKey := addressKey ofa
  -- outgoing edges of the node
  let g1 : DepGraph :=
    match jsMapGet g.outgoing ofKey with
    | none => g
    | some outSet =>
      let inc1 := outSet.foldl
        (fun inc toKey =>
          match jsMapGet inc toKey with
          | none => inc
          | some inSet =>
            let s' := jsSetDelete inSet ofKey
            if s'.isEmpty then jsMapDelete inc toKey else jsMapSet inc toKey s')
        g.incoming
      { outgoing := jsMapDelete g.outgoing ofKey, incoming := inc1 }
  -- incoming edges of the node
  match jsMapGet g1.incoming ofKey with
  | none => g1
  | some inSet =>
    let out1 := inSet.foldl
      (fun out fromKey =>
        match jsMapGet out fromKey with
        | none => out
        | some outSet =>
          let s' := jsSetDelete outSet ofKey
          if s'.isEmpty then jsMapDelete out fromKey else jsMapSet out fromKey s')
      g1.outgoing
    { outgoing := out1, incoming := jsMapDelete g1.incoming ofKey }

/-- BFS worklist of affectedFrom. -/
def DepGraph.affectedFromGo (g : DepGraph) :
    Nat → List String → List String → List String
  | 0, _, affected => affected
  | _ + 1, [], affected => affected
  | fuel + 1, key :: queue, affected =>
    if affected.contains key then DepGraph.affectedFromGo g fuel queue affected
    else
      let affected' := affected ++ [key]
      let dependents := jsMapGetD g.outgoing key []
      let queue' := queue ++ dependents.filter (fun d => ¬ affected'.contains d)
      DepGraph.affectedFromGo g fuel queue' affected'

/-- affectedFrom: forward transitive closure, in BFS insertion order. -/
def DepGraph.affectedFrom (g : DepGraph) (changed : List String) : List String :=
  DepGraph.affectedFromGo g 1000 changed []

/-- BFS worklist of wouldCreateCycle (reachability of `fromKey` from the
first queue element). -/
def DepGraph.wouldCreateCycleGo (g : DepGraph) (fromKey : String) :
    Nat → List String → List String → Bool
  | 0, _, _ => false
  | _ + 1, [], _ => false
  | fuel + 1, current :: queue, visited =>
    if current = fromKey then true
    else if visited.contains current then
      DepGraph.wouldCreateCycleGo g fromKey fuel queue visited
    else
      let visited' := visited ++ [current]
      let deps := jsMapGetD g.outgoing current []
      DepGraph.wouldCreateCycleGo g fromKey fuel
        (queue ++ deps.filter (fun d => ¬ visited'.contains d)) visited'

/-- wouldCreateCycle(from, to): true iff `from` is reachable from `to` in
the forward graph (adding `from → to` would close a loop). -/
def DepGraph.wouldCreateCycle (g : DepGraph) (efrom eto : Address) : Bool :=
  DepGraph.wouldCreateCycleGo g (addressKey efrom) 1000 [addressKey eto] []

def DepGraph.getDependencies (g : DepGraph) (ofa : Address) : List String :=
  jsMapGetD g.incoming (addressKey ofa) []

def DepGraph.getDependents (g : DepGraph) (ofa : Address) : List String :=
  jsMapGetD g.outgoing (addressKey ofa) []

/-! ## RangeWatchers (src/src/range-watchers.ts) -/

structure RangeWatchers where
  watchers : List (String × List String)
  formulaRanges : List (String × List RangeRef)
deriving DecidableEq, Repr

def RangeWatchers.init : RangeWatchers := { watchers := [], formulaRanges := [] }

def RangeWatchers.addWatch (w : RangeWatchers) (range : RangeRef) (formulaAt : Address) :
    RangeWatchers :=
  let fk := addressKey formulaAt
  { w with formulaRanges := jsMapSet w.formulaRanges fk (jsMapGetD w.formulaRanges fk [] ++ [range]) }

def RangeWatchers.removeWatches (w : RangeWatchers) (formulaAt : Address) : RangeWatchers :=
  let fk := addressKey formulaAt
  { watchers := ((w.watchers.map (fun p => (p.1, jsSetDelete p.2 fk))).filter
      (fun p => ¬ p.2.isEmpty))
    formulaRanges := jsMapDelete w.formulaRanges fk }

def RangeWatchers.registerCell (w : RangeWatchers) (cellAddr formulaAt : Address) :
    RangeWatchers :=
  let ck := addressKey cellAddr
  let fk := addressKey formulaAt
  { w with watchers := jsMapSet w.watchers ck (jsSetAdd (jsMapGetD w.watchers ck []) fk) }

def RangeWatchers.watchersOf (w : RangeWatchers) (addr : Address) : List String :=
  jsMapGetD w.watchers (addressKey addr) []

/-! ## Parser (src/src/parser.ts)

String functions operate on `String.data` so that everything reduces; the
regular expressions are embedded as the equivalent character-list matches. -/

/-- colToLetter on `col.toNat` (the loop body is only entered for col > 0):
letter = colToLetterGo((col-1)/26) ++ chr(65 + (col-1) % 26).  The value
strictly decreases each iteration, so fuel `col.toNat` is enough; the fuel
keeps the recursion structural. -/
def colToLetterGo : Nat → Nat → String
  | 0, _ => ""
  | _ + 1, 0 => ""
  | fuel + 1, n + 1 => colToLetterGo fuel (n / 26) ++ String.mk [Char.ofNat (65 + n % 26)]

def colToLetter (col : Int) : String := colToLetterGo col.toNat col.toNat

/-- letterToCol: fold col*26 + (code - 65 + 1) over the characters. -/
def letterToCol (s : String) : Int :=
  s.data.foldl (fun col c => col * 26 + ((c.toNat : Int) - 65 + 1)) 0

def isUpperAZ (c : Char) : Bool := 'A' ≤ c ∧ c ≤ 'Z'

def isDigitChar (c : Char) : Bool := '0' ≤ c ∧ c ≤ '9'

def digitsToNat (cs : List Char) : Nat :=
  cs.foldl (fun n c => n * 10 + (c.toNat - 48)) 0

/-- JavaScript String.prototype.trim on a character list (the inputs used
here only ever carry the plain ASCII whitespace). -/
def jsTrimChars (cs : List Char) : List Char :=
  let ws := fun c => c = ' ' ∨ c = '\t' ∨ c = '\n' ∨ c = '\r'
  ((cs.dropWhile ws).reverse.dropWhile ws).reverse

def jsTrim (s : String) : String := String.mk (jsTrimChars s.data)

/-- parseReference: the regex `^(\$?)([A-Z]+)(\$?)(\d+)$` followed by the
anchor construction against the base position. -/
def parseReference (ref : String) (basePos : Position) (rowAxis colAxis : AxisIndex) :
    Option Anchor :=
  let cs := ref.data
  let (colAbs, cs1) := match cs with
    | '$' :: t => (true, t)
    | _ => (false, cs)
  let letters := cs1.takeWhile isUpperAZ
  let cs2 := cs1.dropWhile isUpperAZ
  let (rowAbs, cs3) := match cs2 with
    | '$' :: t => (true, t)
    | _ => (false, cs2)
  let digits := cs3.takeWhile isDigitChar
  let cs4 := cs3.dropWhile isDigitChar
  if letters.isEmpty ∨ digits.isEmpty ∨ ¬ cs4.isEmpty then none
  else
    let colPos := letterToCol (String.mk letters)
    let rowNum : Int := digitsToNat digits
    match rowAxis.posToId basePos.r, colAxis.posToId basePos.c with
    | some baseRowId, some baseColId =>
      some { base := { row := baseRowId, col := baseColId }
             rowMode := if rowAbs then RowColMode.abs else RowColMode.rel
             colMode := if colAbs then RowColMode.abs else RowColMode.rel
             dRow := rowNum - basePos.r
             dCol := colPos - basePos.c }
    | _, _ => none

def charToUpper (c : Char) : Char :=
  if 'a' ≤ c ∧ c ≤ 'z' then Char.ofNat (c.toNat - 32) else c

/-- The regex `^SUM\(([^:]+):([^)]+)\)$` with the case-insensitive flag:
group 1 is the (non-empty) part before the first ':', group 2 the (non-empty,
')'-free) part between that ':' and the final ')'. -/
def sumMatch (expr : String) : Option (String × String) :=
  match expr.data with
  | s :: u :: m :: p :: rest =>
    if charToUpper s = 'S' ∧ charToUpper u = 'U' ∧ charToUpper m = 'M' ∧ p = '(' then
      let g1 := rest.takeWhile (fun c => c ≠ ':')
      match rest.dropWhile (fun c => c ≠ ':') with
      | ':' :: rest3 =>
        match rest3.getLast? with
        | some ')' =>
          let g2 := rest3.dropLast
          if g1.isEmpty ∨ g2.isEmpty ∨ g2.contains ')' then none
          else some (String.mk g1, String.mk g2)
        | _ => none
      | _ => none
    else none
  | _ => none

/-- parseFormula: '=' marker, then either the SUM(range) form or a plain
reference; `none` stands for the source's `'#REF!'` return.  The trim /
leading-'=' / substring steps are performed on the character list. -/
def parseFormula (src : String) (basePos : Position) (rowAxis colAxis : AxisIndex) :
    Option Formula :=
  match jsTrimChars src.data with
  | '=' :: rest =>
    let expr := jsTrim (String.mk rest)
    match sumMatch expr with
    | some (g1, g2) =>
      match parseReference (jsTrim g1) basePos rowAxis colAxis,
            parseReference (jsTrim g2) basePos rowAxis colAxis with
      | some a, some b => some (Formula.Sum { start := a, stop := b })
      | _, _ => none
    | none =>
      match parseReference expr basePos rowAxis colAxis with
      | some a => some (Formula.Ref a)
      | none => none
  | _ => none

/-- anchorToAddress: the source's rel/abs ternaries both compute
`basePos + offset`, so the two branches are written as one. -/
def anchorToAddress (anchor : Anchor) (rowAxis colAxis : AxisIndex) : Option Address :=
  match rowAxis.idToPos anchor.base.row, colAxis.idToPos anchor.base.col with
  | some baseRowPos, some baseColPos =>
    let targetRowPos := baseRowPos + anchor.dRow
    let targetColPos := baseColPos + anchor.dCol
    match rowAxis.posToId targetRowPos, colAxis.posToId targetColPos with
    | some targetRowId, some targetColId => some { row := targetRowId, col := targetColId }
    | _, _ => none
  | _, _ => none

def formatAnchor (anchor : Anchor) (rowAxis colAxis : AxisIndex) : String :=
  match anchorToAddress anchor rowAxis colAxis with
  | none => "#REF!"
  | some addr =>
    match rowAxis.idToPos addr.row, colAxis.idToPos addr.col with
    | some rowPos, some colPos =>
      (if anchor.colMode = RowColMode.abs then "$" else "")
        ++ colToLetter colPos
        ++ (if anchor.rowMode = RowColMode.abs then "$" else "")
        ++ toString rowPos
    | _, _ => "#REF!"

def formatFormula (formula : Formula) (rowAxis colAxis : AxisIndex) : String :=
  match formula with
  | Formula.Ref ref => "=" ++ formatAnchor ref rowAxis colAxis
  | Formula.Sum range =>
    "=SUM(" ++ formatAnchor range.start rowAxis colAxis ++ ":"
      ++ formatAnchor range.stop rowAxis colAxis ++ ")"

/-! ## Splice transformation (src/src/transform.js) -/

/-- applySpliceToPos: `none` is the source's `'#REF!'` (position deleted). -/
def applySpliceToPos (splice : Splice) (pos : Int) : Option Int :=
  if splice.del > 0 then
    if pos ≥ splice.atPos ∧ pos < splice.atPos + splice.del then none
    else if pos ≥ splice.atPos + splice.del then some (pos - splice.del + splice.ins)
    else some pos
  else if splice.ins > 0 then
    if pos ≥ splice.atPos then some (pos + splice.ins) else some pos
  else some pos

/-- transformAnchor: read the pre-splice base position through the axis,
apply the splice to base (and, for `rel` mode, to the target), and store the
new offset `newTarget − newBase`. -/
def transformAnchor (anchor : Anchor) (splice : Splice) (rowAxis colAxis : AxisIndex) :
    Option Anchor :=
  let isRowSplice := splice.axis = Axis.row
  let basePosOpt := if isRowSplice then rowAxis.idToPos anchor.base.row
    else colAxis.idToPos anchor.base.col
  match basePosOpt with
  | none => none
  | some basePos =>
    let mode := if isRowSplice then anchor.rowMode else anchor.colMode
    let dOffset := if isRowSplice then anchor.dRow else anchor.dCol
    let targetPos := basePos + dOffset
    let newBasePos := applySpliceToPos splice basePos
    let newTargetPos := if mode = RowColMode.rel then applySpliceToPos splice targetPos
      else some targetPos
    match newBasePos, newTargetPos with
    | some nb, some nt =>
      let newDOffset := nt - nb
      some (if isRowSplice then { anchor with dRow := newDOffset }
        else { anchor with dCol := newDOffset })
    | _, _ => none

/-- transformRange: transform both anchors, then check the transformed range
for inversion through the (pre-splice) axis positions of the bases. -/
def transformRange (range : RangeRef) (splice : Splice) (rowAxis colAxis : AxisIndex) :
    Option RangeRef :=
  match transformAnchor range.start splice rowAxis colAxis,
        transformAnchor range.stop splice rowAxis colAxis with
  | some newStart, some newEnd =>
    let isRowSplice := splice.axis = Axis.row
    let startBasePos := if isRowSplice then rowAxis.idToPos newStart.base.row
      else colAxis.idToPos newStart.base.col
    let endBasePos := if isRowSplice then rowAxis.idToPos newEnd.base.row
      else colAxis.idToPos newEnd.base.col
    match startBasePos, endBasePos with
    | some sb, some eb =>
      let startOffset := if isRowSplice then newStart.dRow else newStart.dCol
      let endOffset := if isRowSplice then newEnd.dRow else newEnd.dCol
      if sb + startOffset > eb + endOffset then none
      else some { start := newStart, stop := newEnd }
    | _, _ => none
  | _, _ => none

/-! ## Sheet and Table (src/src/sheet.js) -/

structure Sheet where
  rows : AxisIndex
  cols : AxisIndex
  cells : CellStore
  deps : DepGraph
  ranges : RangeWatchers
deriving DecidableEq, Repr

def Sheet.init (initialRows initialCols : Nat) : Sheet :=
  { rows := AxisIndex.init initialRows
    cols := AxisIndex.init initialCols
    cells := CellStore.init
    deps := DepGraph.init
    ranges := RangeWatchers.init }

def Sheet.posToAddr (s : Sheet) (pos : Position) : Option Address :=
  match s.rows.posToId pos.r, s.cols.posToId pos.c with
  | some rowId, some colId => some { row := rowId, col := colId }
  | _, _ => none

def Sheet.addrToPos (s : Sheet) (addr : Address) : Option Position :=
  match s.rows.idToPos addr.row, s.cols.idToPos addr.col with
  | some r, some c => some { r := r, c := c }
  | _, _ => none

structure Table where
  sheet : Sheet
deriving DecidableEq, Repr

def Table.init (initialRows initialCols : Nat) : Table :=
  { sheet := Sheet.init initialRows initialCols }

/-- `min .. max` loop range over integers, empty when hi < lo. -/
def intRange (lo hi : Int) : List Int :=
  if hi < lo then [] else (List.range (hi - lo + 1).toNat).map (fun i => lo + (i : Int))

/-- expandRange: resolve both anchors, then enumerate every position of the
spanned rectangle and keep the addresses that resolve. -/
def Table.expandRange (t : Table) (range : RangeRef) : List Address :=
  match anchorToAddress range.start t.sheet.rows t.sheet.cols,
        anchorToAddress range.stop t.sheet.rows t.sheet.cols with
  | some startAddr, some endAddr =>
    match t.sheet.addrToPos startAddr, t.sheet.addrToPos endAddr with
    | some startPos, some endPos =>
      (intRange (min startPos.r endPos.r) (max startPos.r endPos.r)).flatMap
        (fun r =>
          (intRange (min startPos.c endPos.c) (max startPos.c endPos.c)).filterMap
            (fun c => t.sheet.posToAddr { r := r, c := c }))
    | _, _ => []
  | _, _ => []

def Table.collectDependencies (t : Table) (formula : Formula) : List Address :=
  match formula with
  | Formula.Ref ref =>
    match anchorToAddress ref t.sheet.rows t.sheet.cols with
    | some addr => [addr]
    | none => []
  | Formula.Sum range => t.expandRange range

/-- evalFormula: for `Ref`, non-numeric target scalars (and uncached or
non-numeric cached values) are coerced to 0; for `Sum`, the inbound edges of
the formula are replaced by the freshly expanded rectangle and each of its
addresses registered with the range watchers before summing the numeric
scalars.  The dependency-graph and watcher mutations are returned alongside
the value. -/
def Table.evalFormula (t : Table) (formula : Formula) (formulaAddr : Address) :
    Scalar × Table :=
  match formula with
  | Formula.Ref ref =>
    match anchorToAddress ref t.sheet.rows t.sheet.cols with
    | none => (Scalar.sref, t)
    | some targetAddr =>
      match t.sheet.cells.get targetAddr with
      | none => (Scalar.num 0, t)
      | some (Cell.value v) =>
        (match v with
          | Scalar.num n => Scalar.num n
          | _ => Scalar.num 0, t)
      | some (Cell.formula _ cached) =>
        (match cached with
          | some (Scalar.num n) => Scalar.num n
          | _ => Scalar.num 0, t)
  | Formula.Sum range =>
    let rectCells := t.expandRange range
    let deps' := t.sheet.deps.replaceAllInbound formulaAddr rectCells
    let ranges' := rectCells.foldl (fun w a => w.registerCell a formulaAddr) t.sheet.ranges
    let total := rectCells.foldl
      (fun acc a =>
        match t.sheet.cells.get a with
        | some (Cell.value (Scalar.num n)) => acc + n
        | some (Cell.formula _ (some (Scalar.num n))) => acc + n
        | _ => acc)
      0
    (Scalar.num total, { sheet := { t.sheet with deps := deps', ranges := ranges' } })

structure TopoState where
  sorted : List String
  visited : List String
  temp : List String
deriving DecidableEq, Repr

/-- The recursive `visit` of topologicalSort, with the three mutable sets
threaded explicitly and a fuel bound on the recursion depth. -/
def topoVisit (deps : DepGraph) (nodes : List String) :
    Nat → String → TopoState → TopoState
  | 0, _, st => st
  | fuel + 1, key, st =>
    if st.visited.contains key then st
    else if st.temp.contains key then st
    else
      let st1 := { st with temp := st.temp ++ [key] }
      let depKeys := deps.getDependencies (parseAddressKey key)
      let st2 := depKeys.foldl
        (fun s d => if nodes.contains d then topoVisit deps nodes fuel d s else s) st1
      { sorted := st2.sorted ++ [key]
        visited := st2.visited ++ [key]
        temp := st2.temp.filter (fun x => x ≠ key) }

def topologicalSort (deps : DepGraph) (nodes : List String) : List String :=
  (nodes.foldl (fun st key => topoVisit deps nodes 1000 key st)
    { sorted := [], visited := [], temp := [] }).sorted

/-- recalc: expand the dirty set to the affected closure, sort it, and
re-evaluate each formula cell in order, writing its cached value. -/
def Table.recalc (t : Table) (dirty : List String) : Table :=
  let affected := t.sheet.deps.affectedFrom dirty
  let sorted := topologicalSort t.sheet.deps affected
  sorted.foldl
    (fun t1 key =>
      let addr := parseAddressKey key
      match t1.sheet.cells.get addr with
      | some (Cell.formula ast _) =>
        let (value, t2) := t1.evalFormula ast addr
        { sheet := { t2.sheet with cells := t2.sheet.cells.set addr (Cell.formula ast (some value)) } }
      | _ => t1)
    t

def Table.setValue (t : Table) (pos : Position) (value : Int) : Table :=
  match t.sheet.posToAddr pos with
  | none => t
  | some addr =>
    let t1 : Table :=
      match t.sheet.cells.get addr with
      | some (Cell.formula _ _) =>
        { sheet := { t.sheet with
            deps := t.sheet.deps.removeAll addr
            ranges := t.sheet.ranges.removeWatches addr } }
      | _ => t
    let t2 : Table :=
      { sheet := { t1.sheet with cells := t1.sheet.cells.set addr (Cell.value (Scalar.num value)) } }
    t2.recalc [addressKey addr]

/-- setFormula.  The source's first loop returns at the first producer for
which `wouldCreateCycle` holds, before the edge-adding loop has run; since
the check loop does not mutate the graph, that early return is `deps.any`. -/
def Table.setFormula (t : Table) (pos : Position) (src : String) : Table :=
  match t.sheet.posToAddr pos with
  | none => t
  | some addr =>
    match parseFormula src pos t.sheet.rows t.sheet.cols with
    | none =>
      { sheet := { t.sheet with cells := t.sheet.cells.set addr (Cell.value Scalar.sref) } }
    | some formula =>
      let t1 : Table :=
        { sheet := { t.sheet with
            deps := t.sheet.deps.removeAll addr
            ranges := t.sheet.ranges.removeWatches addr } }
      let producers := t1.collectDependencies formula
      if producers.any (fun dep => t1.sheet.deps.wouldCreateCycle dep addr) then
        { sheet := { t1.sheet with
            cells := t1.sheet.cells.set addr (Cell.formula formula (some Scalar.scycle)) } }
      else
        let g := producers.foldl (fun g dep => g.addEdge dep addr) t1.sheet.deps
        let r := match formula with
          | Formula.Sum range => t1.sheet.ranges.addWatch range addr
          | _ => t1.sheet.ranges
        let t2 : Table :=
          { sheet := { t1.sheet with
              deps := g
              ranges := r
              cells := t1.sheet.cells.set addr (Cell.formula formula none) } }
        t2.recalc [addressKey addr]

def Table.getValue (t : Table) (pos : Position) : Option Scalar :=
  match t.sheet.posToAddr pos with
  | none => none
  | some addr =>
    match t.sheet.cells.get addr with
    | none => none
    | some (Cell.value v) => some v
    | some (Cell.formula _ cached) => cached

def scalarToString (v : Scalar) : String :=
  match v with
  | Scalar.num n => toString n
  | Scalar.sref => "#REF!"
  | Scalar.scycle => "#CYCLE!"

def Table.getSource (t : Table) (pos : Position) : String :=
  match t.sheet.posToAddr pos with
  | none => ""
  | some addr =>
    match t.sheet.cells.get addr with
    | none => ""
    | some (Cell.value v) => scalarToString v
    | some (Cell.formula ast _) => formatFormula ast t.sheet.rows t.sheet.cols

/-- applySplice: transform every stored formula first (through the
pre-splice axis indexes), collecting the dirty keys — a collapsed anchor or
range stores `Value('#REF!')` and retracts the cell's edges; then mutate the
axis index (insert, then remove); then recalculate.  The source iterates the
live cell map but only ever rewrites the entry currently visited, so the
fold over the initial entry list is the same computation. -/
def Table.applySplice (t : Table) (splice : Splice) : Table :=
  let step := t.sheet.cells.cells.foldl
    (fun (acc : Table × List String) (entry : String × Cell) =>
      let (t1, dirty) := acc
      let key := entry.1
      match entry.2 with
      | Cell.value _ => (t1, dirty)
      | Cell.formula ast cached =>
        let addr := parseAddressKey key
        match ast with
        | Formula.Ref ref =>
          match transformAnchor ref splice t1.sheet.rows t1.sheet.cols with
          | none =>
            ({ sheet := { t1.sheet with
                 cells := t1.sheet.cells.set addr (Cell.value Scalar.sref)
                 deps := t1.sheet.deps.removeAll addr } }, jsSetAdd dirty key)
          | some newRef =>
            ({ sheet := { t1.sheet with
                 cells := t1.sheet.cells.set addr (Cell.formula (Formula.Ref newRef) cached) } },
             jsSetAdd dirty key)
        | Formula.Sum range =>
          match transformRange range splice t1.sheet.rows t1.sheet.cols with
          | none =>
            ({ sheet := { t1.sheet with
                 cells := t1.sheet.cells.set addr (Cell.value Scalar.sref)
                 deps := t1.sheet.deps.removeAll addr } }, jsSetAdd dirty key)
          | some newRange =>
            ({ sheet := { t1.sheet with
                 cells := t1.sheet.cells.set addr (Cell.formula (Formula.Sum newRange) cached) } },
             jsSetAdd dirty key))
    (t, [])
  let t2 := step.1
  let dirty := step.2
  let sheet2 :=
    match splice.axis with
    | Axis.row =>
      let r1 := if splice.ins > 0 then (t2.sheet.rows.insert splice.atPos splice.ins).2
        else t2.sheet.rows
      let r2 := if splice.del > 0 then r1.remove splice.atPos (splice.atPos + splice.del - 1)
        else r1
      { t2.sheet with rows := r2 }
    | Axis.col =>
      let c1 := if splice.ins > 0 then (t2.sheet.cols.insert splice.atPos splice.ins).2
        else t2.sheet.cols
      let c2 := if splice.del > 0 then c1.remove splice.atPos (splice.atPos + splice.del - 1)
        else c1
      { t2.sheet with cols := c2 }
  Table.recalc { sheet := sheet2 } dirty

def Table.insertRows (t : Table) (atPos count : Int) : Table :=
  t.applySplice { axis := Axis.row, atPos := atPos, del := 0, ins := count }

def Table.deleteRows (t : Table) (rfrom rto : Int) : Table :=
  t.applySplice { axis := Axis.row, atPos := rfrom, del := rto - rfrom + 1, ins := 0 }

def Table.insertCols (t : Table) (atPos count : Int) : Table :=
  t.applySplice { axis := Axis.col, atPos := atPos, del := 0, ins := count }

def Table.deleteCols (t : Table) (cfrom cto : Int) : Table :=
  t.applySplice { axis := Axis.col, atPos := cfrom, del := cto - cfrom + 1, ins := 0 }

/-! ## Projections of an anchor along the splice axis, used to state the
splice-transformation claims uniformly for row and column splices. -/

def spliceAxisMode (a : Anchor) (ax : Axis) : RowColMode :=
  match ax with
  | Axis.row => a.rowMode
  | Axis.col => a.colMode

def spliceAxisOffset (a : Anchor) (ax : Axis) : Int :=
  match ax with
  | Axis.row => a.dRow
  | Axis.col => a.dCol

def spliceAxisBasePos (a : Anchor) (ax : Axis) (rowAxis colAxis : AxisIndex) : Option Int :=
  match ax with
  | Axis.row => rowAxis.idToPos a.base.row
  | Axis.col => colAxis.idToPos a.base.col

/-! ## Concrete runs of the embedded engine, used by the claim theorems.

Axis identifiers are minted as `id0, id1, …` per axis, so a table created
with `Table.init r c` has row ids `id0 … id(r-1)` and column ids
`id0 … id(c-1)`; positions are written as in the spec, `(row, col)`,
1-based. -/

/-- AxisIndex(2); insert(5, 1) appends a second segment at position 3;
remove({1, 1}) then drives the remove loop across both segments. -/
def c9Axis : AxisIndex := ((AxisIndex.init 2).insert 5 1).2.remove 1 1

/-- Table(1,1); setValue((1,1), 5); deleteRows(1, 1) — the whole row axis is
deleted. -/
def c2Table : Table := ((Table.init 1 1).setValue { r := 1, c := 1 } 5).deleteRows 1 1

/-- Table(2,1); setFormula((1,1), "x") stores Value('#REF!') (parse
failure); then setFormula((2,1), "=A1"). -/
def c3Table : Table :=
  ((Table.init 2 1).setFormula { r := 1, c := 1 } "x").setFormula { r := 2, c := 1 } "=A1"

/-- The anchor of the formula `=A1` parsed at base (2,1) of `c3Table`. -/
def c3Anchor : Anchor :=
  { base := { row := "id1", col := "id0" }
    rowMode := RowColMode.rel, colMode := RowColMode.rel, dRow := -1, dCol := 0 }

/-- Spec end-to-end scenario 4, first step: Table(2,1);
setFormula((1,1), "=A2"). -/
def c4Mid : Table := (Table.init 2 1).setFormula { r := 1, c := 1 } "=A2"

/-- Spec end-to-end scenario 4: … then setFormula((2,1), "=A1"). -/
def c4Table : Table := c4Mid.setFormula { r := 2, c := 1 } "=A1"

/-- The anchor of `=A1` parsed at base (2,1). -/
def c4Anchor : Anchor :=
  { base := { row := "id1", col := "id0" }
    rowMode := RowColMode.rel, colMode := RowColMode.rel, dRow := -1, dCol := 0 }

/-- Spec end-to-end scenario 2, setup: Table(3,1); setValue((1,1), 10);
setFormula((2,1), "=$A$1"). -/
def c5Mid : Table :=
  ((Table.init 3 1).setValue { r := 1, c := 1 } 10).setFormula { r := 2, c := 1 } "=$A$1"

/-- … then insertRows(1, 1). -/
def c5Table : Table := c5Mid.insertRows 1 1

/-- The splice performed by insertRows(1, 1). -/
def c5Splice : Splice := { axis := Axis.row, atPos := 1, del := 0, ins := 1 }

/-- The stored anchor of `=$A$1` before the splice (base at (2,1), both
modes absolute, offsets (-1, 0)). -/
def c5AnchorBefore : Anchor :=
  { base := { row := "id1", col := "id0" }
    rowMode := RowColMode.abs, colMode := RowColMode.abs, dRow := -1, dCol := 0 }

/-- The same anchor after the transformation: dRow became -2. -/
def c5AnchorAfter : Anchor :=
  { base := { row := "id1", col := "id0" }
    rowMode := RowColMode.abs, colMode := RowColMode.abs, dRow := -2, dCol := 0 }

/-- Table(1,1); setFormula((1,1), "=A1") — a self-reference, stored with
cached '#CYCLE!' and no edges. -/
def c7Before : Table := (Table.init 1 1).setFormula { r := 1, c := 1 } "=A1"

/-- … then the insert/delete round trip insertRows(1,1); deleteRows(1,1). -/
def c7After : Table := (c7Before.insertRows 1 1).deleteRows 1 1

/-- The self-anchor of the formula at (1,1). -/
def c7Anchor : Anchor :=
  { base := { row := "id0", col := "id0" }
    rowMode := RowColMode.rel, colMode := RowColMode.rel, dRow := 0, dCol := 0 }

/-- Table(2,1) (maxPos 2): insertRows(4, 1) — atPos is beyond maxPos+1, so
the minted row id is appended at position 3 — then deleteRows(4, 4). -/
def c7bTable : Table := ((Table.init 2 1).insertRows 4 1).deleteRows 4 4

/-- Table(2,1); setFormula((1,1), "=SUM(A1:A2)") — the formula's own cell
lies inside the observed rectangle, so the set is cycle-blocked — then
setValue((2,1), 7) writes into the previously empty in-range cell. -/
def c8Table : Table :=
  ((Table.init 2 1).setFormula { r := 1, c := 1 } "=SUM(A1:A2)").setValue { r := 2, c := 1 } 7

/-- The stored range of the blocked SUM at (1,1): A1:A2 anchored at (1,1). -/
def c8Range : RangeRef :=
  { start := { base := { row := "id0", col := "id0" }
               rowMode := RowColMode.rel, colMode := RowColMode.rel, dRow := 0, dCol := 0 }
    stop := { base := { row := "id0", col := "id0" }
              rowMode := RowColMode.rel, colMode := RowColMode.rel, dRow := 1, dCol := 0 } }

/-- Table(2,1); insertRows(5, 1) leaves the row axis with two segments
([id0, id1] at 1, [id2] at 3); setFormula((2,1), "=A3") targets row id2. -/
def c1Mid : Table :=
  ((Table.init 2 1).insertRows 5 1).setFormula { r := 2, c := 1 } "=A3"

/-- … then deleteRows(1, 1), which only deletes the position of row id0. -/
def c1Table : Table := c1Mid.deleteRows 1 1

/-- The stored anchor of `=A3` at (2,1); the transformation of the
deleteRows(1,1) splice maps it back onto the same offsets. -/
def c1Anchor : Anchor :=
  { base := { row := "id1", col := "id0" }
    rowMode := RowColMode.rel, colMode := RowColMode.rel, dRow := 1, dCol := 0 }

/-- Table(2,1); setFormula((2,1), "=SUM(A1:A1)") gives the sum cached 0 and
the edge A1→A2; then setFormula((1,1), "=A1") is cycle-blocked but its
removeAll already deleted the sum's inbound edge. -/
def c10Table : Table :=
  ((Table.init 2 1).setFormula { r := 2, c := 1 } "=SUM(A1:A1)").setFormula
    { r := 1, c := 1 } "=A1"

/-- The stored range of the SUM at (2,1): A1:A1 anchored at (2,1). -/
def c10Range : RangeRef :=
  { start := { base := { row := "id1", col := "id0" }
               rowMode := RowColMode.rel, colMode := RowColMode.rel, dRow := -1, dCol := 0 }
    stop := { base := { row := "id1", col := "id0" }
              rowMode := RowColMode.rel, colMode := RowColMode.rel, dRow := -1, dCol := 0 } }

/-! ## Claim theorems -/

/-- C9: the position↔identifier bijection of AxisIndex is violated on a
reachable state.  After AxisIndex(2); insert(5,1); remove({1,1}) the live
identifier id2 has idToPos(id2) = 1, yet posToId(1) = id1 ≠ id2 — the remove
loop shifted the trailing segment twice (once in its inner shift loop, once
through its `to < startPos` branch), leaving two segments that both claim
position 1. -/
theorem c9_axis_bijection_violated_after_remove :
    c9Axis.segments = [{ startPos := 1, ids := ["id1"] }, { startPos := 1, ids := ["id2"] }]
    ∧ c9Axis.idToPos "id2" = some 1
    ∧ c9Axis.posToId 1 = some "id1"
    ∧ ("id1" : String) ≠ "id2" := by
  refine ⟨by decide, by decide, by decide, by decide⟩

/-- C2: the CellStore does keep cells whose identifiers were retired.
After Table(1,1); setValue((1,1),5); deleteRows(1,1) the whole row axis is
gone (idToPos(id0) = none, maxPos = 0), yet the store still holds the value
cell keyed by the retired row id — applySplice never bulk-removes cells, so
deleting the entire axis does not empty the store. -/
theorem c2_store_retains_cell_of_retired_id :
    c2Table.sheet.rows.idToPos "id0" = none
    ∧ c2Table.sheet.rows.maxPos = 0
    ∧ c2Table.sheet.cells.cells = [("id0:id0", Cell.value (Scalar.num 5))]
    ∧ c2Table.sheet.cells.size = 1 := by
  refine ⟨by decide, by decide, by decide, by decide⟩

/-- C3: evaluating Ref over a cell that holds an error sentinel returns 0,
not the sentinel.  In c3Table the cell at (1,1) stores Value('#REF!') (from
a parse failure), and the formula `=A1` at (2,1) evaluates — and caches — 0
instead of propagating '#REF!': the Ref evaluator coerces every non-numeric
scalar to 0. -/
theorem c3_ref_eval_coerces_error_sentinel_to_zero :
    c3Table.sheet.cells.get { row := "id0", col := "id0" } = some (Cell.value Scalar.sref)
    ∧ (c3Table.evalFormula (Formula.Ref c3Anchor) { row := "id1", col := "id0" }).1
        = Scalar.num 0
    ∧ c3Table.getValue { r := 2, c := 1 } = some (Scalar.num 0) := by
  refine ⟨by decide, by decide, by decide⟩

/-- C4: spec end-to-end scenario 4 (setFormula(1,1,"=A2");
setFormula(2,1,"=A1")).  After the first call the graph holds the edge
A2→A1, so the second call's producer A1 closes a loop — yet the second call
stores a plain formula cached 0 (not '#CYCLE!') and installs the
loop-closing edge A1→A2: its unconditional removeAll(A2) deleted the
opposing edge A2→A1 before the cycle check ran, so wouldCreateCycle found
nothing. -/
theorem c4_cycle_not_blocked_edge_installed :
    c4Mid.sheet.deps.getDependents { row := "id1", col := "id0" } = ["id0:id0"]
    ∧ c4Table.sheet.cells.get { row := "id1", col := "id0" }
        = some (Cell.formula (Formula.Ref c4Anchor) (some (Scalar.num 0)))
    ∧ c4Table.sheet.deps.getDependencies { row := "id1", col := "id0" } = ["id0:id0"]
    ∧ some (Scalar.num 0) ≠ some Scalar.scycle := by
  refine ⟨by decide, by decide, by decide, by decide⟩

/-- C7: insertRows(atPos,k); deleteRows(atPos,atPos+k-1) is not a no-op on
cell values.  In c7Before the self-referential formula at (1,1) is stored
with cached '#CYCLE!'; after the round trip insertRows(1,1); deleteRows(1,1)
its AST is back to the original but its cached value has become 0 (the
recalculations triggered by both splices coerce the non-numeric cached
scalar to 0).  Moreover, for atPos beyond maxPos+1 (c7bTable) the minted
identifier id2 is not retired by the paired delete: the insert clamps to an
append at position 3 while the delete targets positions 4..4 and removes
nothing. -/
theorem c7_insert_delete_roundtrip_not_noop :
    Table.getValue c7Before { r := 1, c := 1 } = some Scalar.scycle
    ∧ Table.getValue c7After { r := 1, c := 1 } = some (Scalar.num 0)
    ∧ c7After.sheet.cells.get { row := "id0", col := "id0" }
        = some (Cell.formula (Formula.Ref c7Anchor) (some (Scalar.num 0)))
    ∧ c7bTable.sheet.rows.idToPos "id2" = some 3 := by
  refine ⟨by decide, by decide, by decide, by decide⟩

/-- C8: writing into a previously empty address inside the rectangle of a
stored Sum formula does not always re-evaluate it.  The SUM(A1:A2) at (1,1)
was cycle-blocked (its own cell is in range), so it has neither dependency
edges nor watcher registrations, and `watchersOf` is never consulted by any
engine path; setValue((2,1),7) therefore returns with the formula still
cached '#CYCLE!', although evaluating it in the post-write state yields 7. -/
theorem c8_write_into_watched_empty_cell_not_invalidating :
    c8Table.sheet.cells.get { row := "id0", col := "id0" }
        = some (Cell.formula (Formula.Sum c8Range) (some Scalar.scycle))
    ∧ Table.getValue c8Table { r := 2, c := 1 } = some (Scalar.num 7)
    ∧ Table.getValue c8Table { r := 1, c := 1 } = some Scalar.scycle
    ∧ (c8Table.evalFormula (Formula.Sum c8Range) { row := "id0", col := "id0" }).1
        = Scalar.num 7
    ∧ c8Table.sheet.deps.getDependencies { row := "id0", col := "id0" } = []
    ∧ c8Table.sheet.ranges.watchersOf { row := "id1", col := "id0" } = [] := by
  refine ⟨by decide, by decide, by decide, by decide, by decide, by decide⟩

/-- C1: a relative anchor can stop tracking its target even though both the
base id and the pre-splice target id survive the splice.  In c1Mid the
formula `=A3` at (2,1) resolves to row id2; deleteRows(1,1) deletes only the
position of id0, and afterwards both id1 (base) and id2 (old target) are
still found by idToPos — but the corrupted two-segment axis (the remove
double-shift of C9's root cause) leaves the transformed anchor resolving to
no address at all: the cell collapses to cached '#REF!'. -/
theorem c1_rel_anchor_loses_surviving_target :
    c1Mid.sheet.cells.get { row := "id1", col := "id0" }
        = some (Cell.formula (Formula.Ref c1Anchor) (some (Scalar.num 0)))
    ∧ anchorToAddress c1Anchor c1Mid.sheet.rows c1Mid.sheet.cols
        = some { row := "id2", col := "id0" }
    ∧ c1Table.sheet.rows.idToPos "id1" = some 1
    ∧ c1Table.sheet.rows.idToPos "id2" = some 1
    ∧ c1Table.sheet.cells.get { row := "id1", col := "id0" }
        = some (Cell.formula (Formula.Ref c1Anchor) (some Scalar.sref))
    ∧ anchorToAddress c1Anchor c1Table.sheet.rows c1Table.sheet.cols = none := by
  refine ⟨by decide, by decide, by decide, by decide, by decide, by decide⟩

/-- C10: a stored Sum formula whose cached value is a number can lack the
inbound edge from an address of its resolved rectangle.  After
setFormula(2,1,"=SUM(A1:A1)") the sum is cached 0 with the edge A1→A2; the
subsequent setFormula(1,1,"=A1") calls removeAll(A1), which deletes that
edge (it belongs to the sum at A2, not to A1), is then cycle-blocked, and
never reinstalls anything: the sum keeps cached 0 while its rectangle {A1}
has no edge into it. -/
theorem c10_sum_missing_inbound_edge_from_rectangle :
    c10Table.sheet.cells.get { row := "id1", col := "id0" }
        = some (Cell.formula (Formula.Sum c10Range) (some (Scalar.num 0)))
    ∧ c10Table.expandRange c10Range = [{ row := "id0", col := "id0" }]
    ∧ c10Table.sheet.deps.getDependencies { row := "id1", col := "id0" } = []
    ∧ c10Table.sheet.deps.outgoing = [] := by
  refine ⟨by decide, by decide, by decide, by decide⟩

/-- C5, counterexample to the claim's example: after setValue(1,1,10);
setFormula(2,1,"=$A$1"); insertRows(1,1) the cell at (3,1) does NOT read 10.
It prints as `=$A$1` but reads 0: the absolute target is pinned to position
(1,1), which after the insertion holds the freshly inserted empty row, while
the value 10 has moved to (2,1). -/
theorem c5_counterexample_absolute_example_reads_zero :
    Table.getValue c5Table { r := 3, c := 1 } = some (Scalar.num 0)
    ∧ Table.getValue c5Table { r := 3, c := 1 } ≠ some (Scalar.num 10)
    ∧ Table.getSource c5Table { r := 3, c := 1 } = "=$A$1"
    ∧ Table.getValue c5Table { r := 2, c := 1 } = some (Scalar.num 10) := by
  refine ⟨by decide, by decide, by decide, by decide⟩

/-- C5 (amended): for every splice and every anchor whose mode along the
splice axis is `abs`, whose base survives the transformation and whose
pre-splice target position is not deleted by the splice, the transformed
offset pins the target: the post-splice image of the base position plus the
new offset equals the pre-splice target position.  In the claim's example
the pinned position 1 holds the newly inserted empty row, so the cell at
(3,1) prints as `=$A$1` but reads 0 (not 10). -/
theorem c5_abs_anchor_pins_presplice_target
    (a a' : Anchor) (sp : Splice) (rowAxis colAxis : AxisIndex) (bp nb : Int)
    (hm : spliceAxisMode a sp.axis = RowColMode.abs)
    (hbp : spliceAxisBasePos a sp.axis rowAxis colAxis = some bp)
    (hnb : applySpliceToPos sp bp = some nb)
    (hnd : applySpliceToPos sp (bp + spliceAxisOffset a sp.axis) ≠ none)
    (ht : transformAnchor a sp rowAxis colAxis = some a') :
    nb + spliceAxisOffset a' sp.axis = bp + spliceAxisOffset a sp.axis
    ∧ Table.getValue c5Table { r := 3, c := 1 } = some (Scalar.num 0)
    ∧ Table.getSource c5Table { r := 3, c := 1 } = "=$A$1" := by
  refine ⟨?_, by decide, by decide⟩
  clear hnd
  cases hax : sp.axis
  case row =>
    rw [hax] at hm hbp
    simp only [spliceAxisMode] at hm
    simp only [spliceAxisBasePos] at hbp
    simp only [spliceAxisOffset]
    unfold transformAnchor at ht
    rw [hax] at ht
    simp only [reduceCtorEq, if_true, if_pos rfl] at ht
    rw [hbp, hm] at ht
    simp at ht
    rw [hnb] at ht
    simp at ht
    subst ht
    simp
  case col =>
    rw [hax] at hm hbp
    simp only [spliceAxisMode] at hm
    simp only [spliceAxisBasePos] at hbp
    simp only [spliceAxisOffset]
    unfold transformAnchor at ht
    rw [hax] at ht
    simp only [reduceCtorEq, if_true, if_pos rfl] at ht
    rw [hbp, hm] at ht
    simp at ht
    rw [hnb] at ht
    simp at ht
    subst ht
    simp

/-- C5, witness: the amended statement instantiated at the example's own
anchor (`=$A$1` stored at (2,1), base position 2) and splice
(insertRows(1,1), image of the base = 3). -/
theorem c5_abs_anchor_pins_witness :
    (3 : Int) + spliceAxisOffset c5AnchorAfter c5Splice.axis
        = 2 + spliceAxisOffset c5AnchorBefore c5Splice.axis
    ∧ Table.getValue c5Table { r := 3, c := 1 } = some (Scalar.num 0)
    ∧ Table.getSource c5Table { r := 3, c := 1 } = "=$A$1" :=
  c5_abs_anchor_pins_presplice_target c5AnchorBefore c5AnchorAfter c5Splice
    c5Mid.sheet.rows c5Mid.sheet.cols 2 3 (by decide) (by decide) (by decide)
    (by decide) (by decide)

/-- C6, counterexample: for the absolute anchor of `=$A$1`, after
insertRows(1,1) the resolved address is the new row id3 at position 1 — the
anchor's pre-splice target position — while the post-splice image of that
pre-splice position is 2.  The resolved position does not equal the image. -/
theorem c6_counterexample_abs_position_not_post_splice_image :
    c5Table.sheet.cells.get { row := "id1", col := "id0" }
        = some (Cell.formula (Formula.Ref c5AnchorAfter) (some (Scalar.num 0)))
    ∧ anchorToAddress c5AnchorBefore c5Mid.sheet.rows c5Mid.sheet.cols
        = some { row := "id0", col := "id0" }
    ∧ c5Mid.sheet.rows.idToPos "id0" = some 1
    ∧ applySpliceToPos c5Splice 1 = some 2
    ∧ anchorToAddress c5AnchorAfter c5Table.sheet.rows c5Table.sheet.cols
        = some { row := "id3", col := "id0" }
    ∧ c5Table.sheet.rows.idToPos "id3" = some 1
    ∧ (1 : Int) ≠ 2 := by
  refine ⟨by decide, by decide, by decide, by decide, by decide, by decide, by decide⟩

/-- C6 (amended): after a splice, a surviving anchor with mode `abs` along
the splice axis resolves to its PRE-splice target position (the target is
pinned), and that coincides with the post-splice image of the pre-splice
position exactly when the splice leaves that position fixed. -/
theorem c6_abs_resolved_position_pinned_not_image
    (a a' : Anchor) (sp : Splice) (rowAxis colAxis : AxisIndex) (bp nb ti : Int)
    (hm : spliceAxisMode a sp.axis = RowColMode.abs)
    (hbp : spliceAxisBasePos a sp.axis rowAxis colAxis = some bp)
    (hnb : applySpliceToPos sp bp = some nb)
    (hti : applySpliceToPos sp (bp + spliceAxisOffset a sp.axis) = some ti)
    (ht : transformAnchor a sp rowAxis colAxis = some a') :
    nb + spliceAxisOffset a' sp.axis = bp + spliceAxisOffset a sp.axis
    ∧ (nb + spliceAxisOffset a' sp.axis = ti
        ↔ ti = bp + spliceAxisOffset a sp.axis) := by
  clear hti
  cases hax : sp.axis
  case row =>
    rw [hax] at hm hbp
    simp only [spliceAxisMode] at hm
    simp only [spliceAxisBasePos] at hbp
    simp only [spliceAxisOffset]
    unfold transformAnchor at ht
    rw [hax] at ht
    simp only [reduceCtorEq, if_true, if_pos rfl] at ht
    rw [hbp, hm] at ht
    simp at ht
    rw [hnb] at ht
    simp at ht
    subst ht
    simp
    omega
  case col =>
    rw [hax] at hm hbp
    simp only [spliceAxisMode] at hm
    simp only [spliceAxisBasePos] at hbp
    simp only [spliceAxisOffset]
    unfold transformAnchor at ht
    rw [hax] at ht
    simp only [reduceCtorEq, if_true, if_pos rfl] at ht
    rw [hbp, hm] at ht
    simp at ht
    rw [hnb] at ht
    simp at ht
    subst ht
    simp
    omega

/-- C6, witness: the amended statement instantiated at the `=$A$1` anchor
and insertRows(1,1): the resolved position 3 + (-2) = 1 equals the
pre-splice target position 2 + (-1), and it equals the image 2 iff 2 were
equal to 1. -/
theorem c6_abs_resolved_position_witness :
    (3 : Int) + spliceAxisOffset c5AnchorAfter c5Splice.axis
        = 2 + spliceAxisOffset c5AnchorBefore c5Splice.axis
    ∧ ((3 : Int) + spliceAxisOffset c5AnchorAfter c5Splice.axis = 2
        ↔ (2 : Int) = 2 + spliceAxisOffset c5AnchorBefore c5Splice.axis) :=
  c6_abs_resolved_position_pinned_not_image c5AnchorBefore c5AnchorAfter c5Splice
    c5Mid.sheet.rows c5Mid.sheet.cols 2 3 2 (by decide) (by decide) (by decide)
    (by decide) (by decide)

end TableSpec
